import Mathlib

/-!
Shallow embedding of the RecallLens core (`packages/core`): barcode
normalization and checksum validation (`utils/upc.ts`), lot-code and
expiry-date parsing (`parsers/lot.ts`), fuzzy brand/product text similarity
(`matching/text.ts`), and the tiered decision engine (`matching/decision.ts`),
together with theorems settling the specification's claims about them.

Modelling conventions:
- JavaScript strings are Lean `String`s; character-level operations are
  modelled for the ASCII range the data uses.
- JavaScript numbers are modelled as `Nat`/`Int`/`ℚ` (the code only performs
  exact small-integer and simple fractional arithmetic on the paths the
  claims touch).
- `undefined`-able values are `Option`s.  JavaScript truthiness is modelled
  explicitly: a missing value and the empty string are both falsy
  (`strTruthy`), while a present array is truthy even when empty.
- The JavaScript regular-expression and `Date` built-ins are modelled by
  executable Lean functions over the construct subset the repository's data
  and patterns use; a construct outside the subset compiles to `none`
  (mirroring the "malformed pattern" case).
-/

namespace RecallLens

/-! ## JavaScript string and character helpers -/

/-- The characters matched by the JavaScript regex class `\s` (ASCII range). -/
def jsIsSpace (c : Char) : Bool :=
  c == ' ' || c == '\t' || c == '\n' || c == '\x0d' || c == '\x0b' || c == '\x0c'

/-- The characters matched by the JavaScript regex class `\w`: `[A-Za-z0-9_]`. -/
def jsIsWordChar (c : Char) : Bool :=
  ('a' ≤ c && c ≤ 'z') || ('A' ≤ c && c ≤ 'Z') || ('0' ≤ c && c ≤ '9') || c == '_'

/-- ASCII decimal digit test (the JavaScript class `\d` is `[0-9]`). -/
def jsIsDigit (c : Char) : Bool := '0' ≤ c && c ≤ '9'

/-- ASCII lower-casing, the fragment of `String.prototype.toLowerCase` the
data exercises. -/
def jsToLower (c : Char) : Char :=
  if 'A' ≤ c && c ≤ 'Z' then Char.ofNat (c.toNat + 32) else c

/-- ASCII upper-casing (`String.prototype.toUpperCase` on ASCII). -/
def jsToUpper (c : Char) : Char :=
  if 'a' ≤ c && c ≤ 'z' then Char.ofNat (c.toNat - 32) else c

/-- `String.prototype.trim`: strip leading and trailing whitespace. -/
def jsTrim (s : String) : String :=
  ⟨((s.data.dropWhile jsIsSpace).reverse.dropWhile jsIsSpace).reverse⟩

/-- Numeric value of a decimal digit character. -/
def digitVal (c : Char) : Nat := c.toNat - '0'.toNat

/-- `parseInt(s, 10)` on a string of decimal digits. -/
def digitsToNat (s : String) : Nat :=
  s.data.foldl (fun acc c => 10 * acc + digitVal c) 0

/-- `String.prototype.padStart(n, c)`. -/
def padStart (s : String) (n : Nat) (c : Char) : String :=
  if n ≤ s.length then s else ⟨List.replicate (n - s.length) c ++ s.data⟩

/-- JavaScript truthiness of an optional string: `undefined` and `""` are
falsy, every other string is truthy. -/
def strTruthy : Option String → Bool
  | none => false
  | some s => !s.isEmpty

/-! ## Identifier normalizer (`packages/core/src/utils/upc.ts`) -/

/-- The `type` discriminator of `UPCDetails`. -/
inductive UPCType where
  | upcA | ean13 | ean8 | invalid
deriving Repr, DecidableEq

/-- `UPCDetails` from `utils/upc.ts`. -/
structure UPCDetails where
  type : UPCType
  normalized : String
  isValid : Bool
deriving Repr, DecidableEq

/-- `validateChecksum(code, length)` from `utils/upc.ts`, translated verbatim:
the weight of the digit at index `i` is
`(length === 8 && i % 2 === 0) ? 3 : (i % 2 === 0 ? 1 : 3)`
(note that for `length = 8` this yields weight 3 at every index, and for
`length = 12` it yields the 1,3,1,3,… alternation), and the expected check
digit is `(10 - sum % 10) % 10`.  The unused local `multiplier` of the source
is dropped. -/
def validateChecksum (code : String) (length : Nat) : Bool :=
  if code.length ≠ length then false
  else
    let ds := code.data
    let sum := (List.range (length - 1)).foldl
      (fun acc i =>
        let digit := digitVal (ds.getD i '0')
        let weight := if length == 8 && i % 2 == 0 then 3
                      else if i % 2 == 0 then 1 else 3
        acc + digit * weight) 0
    let checkDigit := digitVal (ds.getD (length - 1) '0')
    checkDigit == (10 - sum % 10) % 10

/-- `normalizeUPC(input)` from `utils/upc.ts`. -/
def normalizeUPC (input : String) : UPCDetails :=
  let cleaned : String := ⟨input.data.filter jsIsDigit⟩
  if cleaned.length = 8 then
    ⟨UPCType.ean8, padStart cleaned 8 '0', validateChecksum cleaned 8⟩
  else if cleaned.length = 12 then
    ⟨UPCType.upcA, padStart cleaned 12 '0', validateChecksum cleaned 12⟩
  else if cleaned.length = 13 then
    ⟨UPCType.ean13, padStart cleaned 13 '0', validateChecksum cleaned 13⟩
  else
    ⟨UPCType.invalid, cleaned, false⟩

/-- `areUPCEquivalent(upc1, upc2)` from `utils/upc.ts`. -/
def areUPCEquivalent (upc1 upc2 : String) : Bool :=
  let norm1 := normalizeUPC upc1
  let norm2 := normalizeUPC upc2
  if !norm1.isValid || !norm2.isValid then false
  else if norm1.type == UPCType.upcA && norm2.type == UPCType.upcA then
    norm1.normalized.take 11 == norm2.normalized.take 11
  else if norm1.type == UPCType.ean13 && norm2.type == UPCType.ean13 then
    norm1.normalized.take 12 == norm2.normalized.take 12
  else false

/-- Modelled from the spec (§4.1, "the standard modulo-10 weighted
checksum"), for comparison with the source's `validateChecksum`: the public
UPC-A/EAN-13/EAN-8 check-digit rule.  For lengths 8 and 12 the weights
alternate 3,1,3,1,… over the payload starting at index 0; for length 13 they
alternate 1,3,1,3,…; the check digit is `(10 - sum % 10) % 10`. -/
def standardChecksumOk (code : String) : Bool :=
  let length := code.length
  if length ≠ 8 && length ≠ 12 && length ≠ 13 then false
  else if !(code.data.all jsIsDigit) then false
  else
    let ds := code.data
    let sum := (List.range (length - 1)).foldl
      (fun acc i =>
        let digit := digitVal (ds.getD i '0')
        let weight := if length == 13 then (if i % 2 == 0 then 1 else 3)
                      else (if i % 2 == 0 then 3 else 1)
        acc + digit * weight) 0
    let checkDigit := digitVal (ds.getD (length - 1) '0')
    checkDigit == (10 - sum % 10) % 10

/-! ## Model of the JavaScript regular-expression engine

`matchesLotPattern` compiles record-supplied pattern strings with
`new RegExp(pattern, 'i')` and calls `.test(lot)`, catching compile errors.
The model below covers the construct subset lot patterns use: the `^` and `$`
anchors, literal characters, escapes (`\d`, `\w`, `\s` and their negations,
escaped metacharacters), `.`, character classes `[...]` with ranges and
negation, and the `*`, `+`, `?` quantifiers.  A pattern the model cannot
compile — which includes everything `new RegExp` itself rejects, such as an
unterminated class or a dangling quantifier — yields `none`, the
"malformed pattern" case.  Matching is case-insensitive throughout, mirroring
the `'i'` flag. -/

/-- The Perl-style shorthand classes `\d`, `\w`, `\s`. -/
inductive PerlCls where
  | d | w | s
deriving Repr, DecidableEq

/-- One matchable regex element. -/
inductive RElem where
  | lit (c : Char)
  | dot
  | perl (p : PerlCls) (neg : Bool)
  | cls (neg : Bool) (singles : List Char) (ranges : List (Char × Char))
deriving Repr, DecidableEq

/-- Quantifier attached to an element. -/
inductive Quant where
  | one | star | plus | opt
deriving Repr, DecidableEq

/-- A compiled pattern: optional `^`/`$` anchors around a quantified-element
sequence. -/
structure JsRegex where
  anchorStart : Bool
  anchorEnd : Bool
  elems : List (RElem × Quant)
deriving Repr, DecidableEq

/-- Parse the body of a character class, after the opening `[`.  Returns the
element and the input following the closing `]`; an unterminated class is a
compile error, as in `new RegExp`. -/
def parseCls (fuel : Nat) (neg : Bool) (singles : List Char)
    (ranges : List (Char × Char)) : List Char → Option (RElem × List Char)
  | [] => none
  | c :: rest =>
    match fuel with
    | 0 => none
    | fuel + 1 =>
      if c == ']' then some (RElem.cls neg singles.reverse ranges.reverse, rest)
      else if c == '\\' then
        match rest with
        | [] => none
        | e :: rest' => parseCls fuel neg (e :: singles) ranges rest'
      else
        match rest with
        | '-' :: hi :: rest' =>
          if hi == ']' then
            -- a trailing `-` is a literal; `]` then closes the class
            parseCls fuel neg ('-' :: c :: singles) ranges (hi :: rest')
          else parseCls fuel neg singles ((c, hi) :: ranges) rest'
        | _ => parseCls fuel neg (c :: singles) ranges rest

/-- Parse one atom (the element a quantifier may attach to).  Constructs the
model does not support — groups, alternation, braces, assertions — and the
patterns `new RegExp` rejects outright both yield `none`. -/
def parseAtom (c : Char) (rest : List Char) : Option (RElem × List Char) :=
  if c == '\\' then
    match rest with
    | [] => none
    | e :: rest' =>
      if e == 'd' then some (RElem.perl PerlCls.d false, rest')
      else if e == 'D' then some (RElem.perl PerlCls.d true, rest')
      else if e == 'w' then some (RElem.perl PerlCls.w false, rest')
      else if e == 'W' then some (RElem.perl PerlCls.w true, rest')
      else if e == 's' then some (RElem.perl PerlCls.s false, rest')
      else if e == 'S' then some (RElem.perl PerlCls.s true, rest')
      else if e == 'n' then some (RElem.lit '\n', rest')
      else if e == 't' then some (RElem.lit '\t', rest')
      else if e == 'r' then some (RElem.lit '\x0d', rest')
      else if e == 'b' || e == 'B' then none  -- boundary assertions: unsupported
      else some (RElem.lit e, rest')          -- identity escape
  else if c == '.' then some (RElem.dot, rest)
  else if c == '[' then parseCls (rest.length + 1) false [] [] rest
  else if c == '(' || c == ')' || c == '|' || c == '{' || c == '}' then none
  else if c == '*' || c == '+' || c == '?' then none  -- nothing to repeat
  else if c == '^' || c == '$' then none  -- anchors handled at the sequence level
  else some (RElem.lit c, rest)

/-- Parse a quantified-element sequence up to the end of the pattern,
reporting whether it ended with a `$` anchor. -/
def parseSeq (fuel : Nat) : List Char → Option (List (RElem × Quant) × Bool)
  | [] => some ([], false)
  | c :: rest =>
    match fuel with
    | 0 => none
    | fuel + 1 =>
      if c == '$' && rest == [] then some ([], true)
      else
        match parseAtom c rest with
        | none => none
        | some (e, rest') =>
          let (q, rest'') :=
            match rest' with
            | '*' :: t => (Quant.star, t)
            | '+' :: t => (Quant.plus, t)
            | '?' :: t => (Quant.opt, t)
            | t => (Quant.one, t)
          match parseSeq fuel rest'' with
          | none => none
          | some (es, ae) => some ((e, q) :: es, ae)

/-- `new RegExp(pattern, 'i')`, as far as the model reaches: a leading `^`
sets the start anchor, a final `$` the end anchor. -/
def compileRegex (pattern : String) : Option JsRegex :=
  let cs := pattern.data
  let (anchored, body) :=
    match cs with
    | '^' :: t => (true, t)
    | t => (false, t)
  match parseSeq (body.length + 1) body with
  | none => none
  | some (es, ae) => some ⟨anchored, ae, es⟩

/-- Does element `e` match character `c`, case-insensitively (the `'i'`
flag)? -/
def elemMatch (e : RElem) (c : Char) : Bool :=
  match e with
  | RElem.lit l => jsToLower l == jsToLower c
  | RElem.dot => !(c == '\n' || c == '\x0d')
  | RElem.perl PerlCls.d neg => xor neg (jsIsDigit c)
  | RElem.perl PerlCls.w neg => xor neg (jsIsWordChar c)
  | RElem.perl PerlCls.s neg => xor neg (jsIsSpace c)
  | RElem.cls neg singles ranges =>
    let hit (x : Char) : Bool :=
      singles.any (fun s => jsToLower s == jsToLower x) ||
      ranges.any (fun r => (r.1 ≤ x && x ≤ r.2) ||
        (r.1 ≤ jsToLower x && jsToLower x ≤ r.2) ||
        (r.1 ≤ jsToUpper x && jsToUpper x ≤ r.2))
    xor neg (hit c)

/-- Backtracking matcher, fuel-based (each recursive step strictly shrinks
`cs.length + es.length`, so `cs.length + es.length + 1` fuel always
suffices): can `es` match a prefix of `cs` (all of `cs` when `endA` is
set)? -/
def matchHereF (endA : Bool) : Nat → List (RElem × Quant) → List Char → Bool
  | 0, _, _ => false
  | fuel + 1, es, cs =>
    match es, cs with
    | [], cs => !endA || cs.isEmpty
    | (e, Quant.one) :: rest, cs =>
      match cs with
      | [] => false
      | c :: cs' => elemMatch e c && matchHereF endA fuel rest cs'
    | (e, Quant.opt) :: rest, cs =>
      matchHereF endA fuel rest cs ||
        (match cs with
         | [] => false
         | c :: cs' => elemMatch e c && matchHereF endA fuel rest cs')
    | (e, Quant.star) :: rest, cs =>
      matchHereF endA fuel rest cs ||
        (match cs with
         | [] => false
         | c :: cs' =>
           elemMatch e c && matchHereF endA fuel ((e, Quant.star) :: rest) cs')
    | (e, Quant.plus) :: rest, cs =>
      match cs with
      | [] => false
      | c :: cs' => elemMatch e c && matchHereF endA fuel ((e, Quant.star) :: rest) cs'

/-- Entry point of the matcher with sufficient fuel. -/
def matchHere (endA : Bool) (es : List (RElem × Quant)) (cs : List Char) : Bool :=
  matchHereF endA (cs.length + es.length + 1) es cs

/-- Unanchored search: try the match at every start position. -/
def searchHere (endA : Bool) (es : List (RElem × Quant)) : List Char → Bool
  | [] => matchHere endA es []
  | c :: cs' => matchHere endA es (c :: cs') || searchHere endA es cs'

/-- `regex.test(s)`. -/
def rtest (r : JsRegex) (s : String) : Bool :=
  if r.anchorStart then matchHere r.anchorEnd r.elems s.data
  else searchHere r.anchorEnd r.elems s.data

/-- `matchesLotPattern(lot, pattern)` from `parsers/lot.ts`: compile the
pattern case-insensitively and test; a compile failure is caught and treated
as non-matching. -/
def matchesLotPattern (lot pattern : String) : Bool :=
  match compileRegex pattern with
  | none => false
  | some r => rtest r lot

/-! ## Model of the JavaScript `Date` constructor

`isDateInRange` and `parseExpiryDate` validate date strings with
`new Date(s)` and `isNaN(date.getTime())`.  The model covers the ISO
date-only form `YYYY-MM-DD` (four-digit year, two-digit month and day),
which is the shape the engine itself constructs and the shape record
validity windows use: such a string is a valid date exactly when it names a
real calendar date (so `2023-02-29` is invalid, as in the engines).  Any
other string is modelled as an invalid date. -/

/-- Gregorian leap-year rule. -/
def isLeapYear (y : Nat) : Bool :=
  y % 4 == 0 && (y % 100 != 0 || y % 400 == 0)

/-- Days in a month. -/
def daysInMonth (y m : Nat) : Nat :=
  if m == 2 then (if isLeapYear y then 29 else 28)
  else if m == 4 || m == 6 || m == 9 || m == 11 then 30
  else 31

/-- Split a character list on every occurrence of `sep`
(`"a-b-".split("-") = ["a","b",""]` semantics). -/
def splitOnChar (sep : Char) : List Char → List (List Char)
  | [] => [[]]
  | c :: cs =>
    let r := splitOnChar sep cs
    if c == sep then [] :: r
    else
      match r with
      | t :: ts => (c :: t) :: ts
      | [] => [[c]]

/-- `new Date(s)` restricted to ISO `YYYY-MM-DD`: the parsed
(year, month, day) triple, or `none` for an invalid date. -/
def jsParseDate (s : String) : Option (Nat × Nat × Nat) :=
  match splitOnChar '-' s.data with
  | [ys, ms, ds] =>
    if ys.length == 4 && ms.length == 2 && ds.length == 2 &&
       ys.all jsIsDigit && ms.all jsIsDigit && ds.all jsIsDigit then
      let y := digitsToNat ⟨ys⟩
      let m := digitsToNat ⟨ms⟩
      let d := digitsToNat ⟨ds⟩
      if 1 ≤ m && m ≤ 12 && 1 ≤ d && d ≤ daysInMonth y m then some (y, m, d)
      else none
    else none
  | _ => none

/-- Strict chronological order on parsed dates (comparison of the underlying
epoch timestamps of two UTC-midnight dates). -/
def dateLt (a b : Nat × Nat × Nat) : Bool :=
  a.1 < b.1 || (a.1 == b.1 && (a.2.1 < b.2.1 || (a.2.1 == b.2.1 && a.2.2 < b.2.2)))

/-- `isDateInRange(date, start?, end?)` from `parsers/lot.ts`.  The source's
`end` parameter is named `stop` (`end` is reserved in Lean).  `if (start)` is
string truthiness: an absent or empty bound is skipped; a present but
unparseable bound fails the check. -/
def isDateInRange (date : String) (start stop : Option String) : Bool :=
  match jsParseDate date with
  | none => false
  | some target =>
    let startOk :=
      if strTruthy start then
        match jsParseDate (start.getD "") with
        | none => false
        | some sd => !dateLt target sd
      else true
    let stopOk :=
      if strTruthy stop then
        match jsParseDate (stop.getD "") with
        | none => false
        | some ed => !dateLt ed target
      else true
    startOk && stopOk

/-! ## Lot-code and expiry-date parsers (`packages/core/src/parsers/lot.ts`)

Each entry of the source's `LOT_PATTERNS` / `EXPIRY_PATTERNS` arrays is a
concrete regular expression, translated here into an executable matcher that
returns the pattern's capture groups.  In every pattern the capture groups
are digit or letter runs delimited by characters outside the run's class, so
the greedy backtracking match is forced and each matcher below simply checks
the unique possible decomposition. -/

/-- `ParsedLot` from `parsers/lot.ts` (`components` inlined; the source field
names `prefix`/`date`/`suffix` are reserved or clash in Lean, hence
`prefixPart`/`datePart`/`suffixPart`). -/
structure ParsedLot where
  raw : String
  normalized : String
  prefixPart : Option String
  datePart : Option String
  suffixPart : Option String
deriving Repr, DecidableEq

/-- `ParsedExpiry` from `parsers/lot.ts`. -/
structure ParsedExpiry where
  raw : String
  normalized : String
  confidence : ℚ
deriving Repr, DecidableEq

/-- Interpolation of a possibly-`undefined` group into a template literal:
JavaScript renders `undefined` as the string `"undefined"`. -/
def jsInterp : Option String → String
  | none => "undefined"
  | some s => s

/-- Split a leading run of decimal digits. -/
def digitRun (cs : List Char) : List Char × List Char :=
  (cs.takeWhile jsIsDigit, cs.dropWhile jsIsDigit)

/-- Case-insensitive literal prefix match: if `lit` (given lowercase) heads
`cs`, return the remainder. -/
def stripLit (lit : List Char) (cs : List Char) : Option (List Char) :=
  match lit, cs with
  | [], cs => some cs
  | _ :: _, [] => none
  | l :: ls, c :: cs' => if l == jsToLower c then stripLit ls cs' else none

/-- Match three digit groups `g1 sep g2 sep g3` spanning all of `cs`, where
`g1` has 1–`max1` digits, `g2` 1–2 digits, `g3` `minY`–`maxY` digits, and
each separator is a single character satisfying `sep`.  This is the unique
decomposition the corresponding anchored regex admits, because the groups
are maximal digit runs bounded by non-digit separators. -/
def numGroups3 (sep : Char → Bool) (max1 minY maxY : Nat) (cs : List Char) :
    Option (String × String × String) :=
  let (g1, rest1) := digitRun cs
  if g1.length < 1 || max1 < g1.length then none
  else
    match rest1 with
    | [] => none
    | s1 :: rest2 =>
      if !sep s1 then none
      else
        let (g2, rest3) := digitRun rest2
        if g2.length < 1 || 2 < g2.length then none
        else
          match rest3 with
          | [] => none
          | s2 :: rest4 =>
            if !sep s2 then none
            else
              let (g3, rest5) := digitRun rest4
              if rest5 ≠ [] || g3.length < minY || maxY < g3.length then none
              else some (⟨g1⟩, ⟨g2⟩, ⟨g3⟩)

/-- Separator class `[\/\-\s]` of the numeric date patterns. -/
def dateSep (c : Char) : Bool := c == '/' || c == '-' || jsIsSpace c

/-- Separator class `[\/\-]`. -/
def slashDash (c : Char) : Bool := c == '/' || c == '-'

/-- `/^(\d{1,2})[\/\-\s](\d{1,2})[\/\-\s](\d{4})$/` -/
def expiryPat1 (s : String) : Option (String × String × String) :=
  numGroups3 dateSep 2 4 4 s.data

/-- `/^(\d{1,2})[\/\-](\d{1,2})[\/\-](\d{2})$/` -/
def expiryPat2 (s : String) : Option (String × String × String) :=
  numGroups3 slashDash 2 2 2 s.data

/-- `/^(\d{4})-(\d{1,2})-(\d{1,2})$/` — the ISO pattern; group 1 is the
four-digit year. -/
def expiryPat3 (s : String) : Option (String × String × String) :=
  numGroups3 (fun c => c == '-') 4 1 2 s.data

/-- Strip `[.:\s]*` or `[:\s]*`-style separator runs. -/
def stripSepRun (cls : Char → Bool) (cs : List Char) : List Char :=
  cs.dropWhile cls

/-- `/^best\s(?:if\s)?(?:used\s)?by\s(\d{1,2})[\/\-\s](\d{1,2})[\/\-\s](\d{2,4})$/i` -/
def expiryPat4 (s : String) : Option (String × String × String) :=
  match stripLit "best".data s.data with
  | none => none
  | some r1 =>
    match r1 with
    | c :: r2 =>
      if !jsIsSpace c then none
      else
        let r3 := match stripLit "if".data r2 with
                  | some (c' :: r') => if jsIsSpace c' then r' else r2
                  | _ => r2
        let r4 := match stripLit "used".data r3 with
                  | some (c' :: r') => if jsIsSpace c' then r' else r3
                  | _ => r3
        match stripLit "by".data r4 with
        | none => none
        | some r5 =>
          match r5 with
          | c' :: r6 => if jsIsSpace c' then numGroups3 dateSep 2 2 4 r6 else none
          | [] => none
    | [] => none

/-- `/^exp[.:\s]*(\d{1,2})[\/\-\s](\d{1,2})[\/\-\s](\d{2,4})$/i` -/
def expiryPat5 (s : String) : Option (String × String × String) :=
  match stripLit "exp".data s.data with
  | none => none
  | some r =>
    numGroups3 dateSep 2 2 4 (stripSepRun (fun c => c == '.' || c == ':' || jsIsSpace c) r)

/-- `/^use\sby[:\s]*(\d{1,2})[\/\-\s](\d{1,2})[\/\-\s](\d{2,4})$/i` -/
def expiryPat6 (s : String) : Option (String × String × String) :=
  match stripLit "use".data s.data with
  | none => none
  | some r1 =>
    match r1 with
    | c :: r2 =>
      if !jsIsSpace c then none
      else
        match stripLit "by".data r2 with
        | none => none
        | some r3 =>
          numGroups3 dateSep 2 2 4 (stripSepRun (fun c' => c' == ':' || jsIsSpace c') r3)
    | [] => none

/-- `/^sell\sby[:\s]*(\d{1,2})[\/\-\s](\d{1,2})[\/\-\s](\d{2,4})$/i` -/
def expiryPat7 (s : String) : Option (String × String × String) :=
  match stripLit "sell".data s.data with
  | none => none
  | some r1 =>
    match r1 with
    | c :: r2 =>
      if !jsIsSpace c then none
      else
        match stripLit "by".data r2 with
        | none => none
        | some r3 =>
          numGroups3 dateSep 2 2 4 (stripSepRun (fun c' => c' == ':' || jsIsSpace c') r3)
    | [] => none

/-- `EXPIRY_PATTERNS` from `parsers/lot.ts`, in source order. -/
def EXPIRY_PATTERNS : List (String → Option (String × String × String)) :=
  [expiryPat1, expiryPat2, expiryPat3, expiryPat4, expiryPat5, expiryPat6, expiryPat7]

/-- The body of `parseExpiryDate`'s loop after a pattern matched: the match's
groups are destructured positionally as `[, month, day, year]` (for the ISO
pattern this reads the year into `month` and so on — translated exactly as
written).  Returns `none` where the source `continue`s. -/
def expiryFromMatch (raw : String) (g : String × String × String) :
    Option ParsedExpiry :=
  let month := g.1
  let day := g.2.1
  let year := g.2.2
  let fullYear := if year.length == 2 then
      (if digitsToNat year < 50 then 2000 + digitsToNat year
       else 1900 + digitsToNat year)
    else digitsToNat year
  let monthNum := digitsToNat month
  let dayNum := digitsToNat day
  if monthNum < 1 || monthNum > 12 || dayNum < 1 || dayNum > 31 then none
  else
    let isoDate := toString fullYear ++ "-" ++ padStart month 2 '0' ++ "-" ++
      padStart day 2 '0'
    match jsParseDate isoDate with
    | none => none
    | some _ => some ⟨raw, isoDate, mkRat 9 10⟩

/-- The pattern loop of `parseExpiryDate`: first pattern whose match also
survives validation wins; a failed validation `continue`s to the next
pattern. -/
def tryExpiryPatterns (cleaned : String) :
    List (String → Option (String × String × String)) → Option ParsedExpiry
  | [] => none
  | p :: ps =>
    match p cleaned with
    | none => tryExpiryPatterns cleaned ps
    | some g =>
      match expiryFromMatch cleaned g with
      | none => tryExpiryPatterns cleaned ps
      | some r => some r

/-- `parseExpiryDate(text)` from `parsers/lot.ts`. -/
def parseExpiryDate (text : String) : Option ParsedExpiry :=
  tryExpiryPatterns (jsTrim text) EXPIRY_PATTERNS

/-- ASCII letter (`[A-Z]` under the `'i'` flag). -/
def isAsciiAlpha (c : Char) : Bool :=
  ('A' ≤ c && c ≤ 'Z') || ('a' ≤ c && c ≤ 'z')

/-- `[A-Z0-9]` under the `'i'` flag. -/
def isAlnumCls (c : Char) : Bool := isAsciiAlpha c || jsIsDigit c

/-- `/^(L?)(\d{4,6})([A-Z]?)$/i`: match groups `m[1..3]`. -/
def lotPat1 (s : String) : Option (Option String × Option String × Option String) :=
  let cs := s.data
  let (g1, r1) : String × List Char :=
    match cs with
    | c :: rest => if jsToLower c == 'l' then (⟨[c]⟩, rest) else ("", cs)
    | [] => ("", cs)
  let (run, r2) := digitRun r1
  if run.length < 4 || 6 < run.length then none
  else
    match r2 with
    | [] => some (some g1, some ⟨run⟩, some "")
    | [c] => if isAsciiAlpha c then some (some g1, some ⟨run⟩, some ⟨[c]⟩) else none
    | _ => none

/-- The group `([A-Z]?\d{4,})$` of the labelled lot patterns. -/
def lotLabelGroup (r : List Char) : Option String :=
  let (g1, r1) : List Char × List Char :=
    match r with
    | c :: rest => if isAsciiAlpha c then ([c], rest) else ([], r)
    | [] => ([], r)
  let (run, r2) := digitRun r1
  if run.length < 4 || r2 ≠ [] then none else some ⟨g1 ++ run⟩

/-- `/^lot[:\s]*([A-Z]?\d{4,})$/i` and its `batch`/`serial` variants. -/
def lotPatLabelled (lab : String) (s : String) :
    Option (Option String × Option String × Option String) :=
  match stripLit lab.data s.data with
  | none => none
  | some r =>
    match lotLabelGroup (r.dropWhile (fun c => c == ':' || jsIsSpace c)) with
    | none => none
    | some g => some (some g, none, none)

/-- `/^model[:\s]*([A-Z0-9]+)$/i` -/
def lotPat5 (s : String) : Option (Option String × Option String × Option String) :=
  match stripLit "model".data s.data with
  | none => none
  | some r =>
    let r' := r.dropWhile (fun c => c == ':' || jsIsSpace c)
    let run := r'.takeWhile isAlnumCls
    if run.length < 1 || r'.dropWhile isAlnumCls ≠ [] then none
    else some (some ⟨run⟩, none, none)

/-- `LOT_PATTERNS` from `parsers/lot.ts`, in source order. -/
def LOT_PATTERNS : List (String → Option (Option String × Option String × Option String)) :=
  [lotPat1, lotPatLabelled "lot", lotPatLabelled "batch", lotPatLabelled "serial", lotPat5]

/-- `s || undefined`: the empty string is falsy. -/
def strOrUndef (s : String) : Option String :=
  if s.isEmpty then none else some s

/-- The pattern loop of `parseLotCode`.  The source destructures the match
array as `[, prefix = '', date, suffix = '']`, so for the labelled patterns
(which have a single group) `date` is `undefined` and its template-literal
interpolation contributes the text `"undefined"` to `normalized`. -/
def tryLotPatterns (cleaned raw : String) :
    List (String → Option (Option String × Option String × Option String)) →
    Option ParsedLot
  | [] => none
  | p :: ps =>
    match p cleaned with
    | none => tryLotPatterns cleaned raw ps
    | some m =>
      let prefixG := m.1.getD ""
      let dateG := m.2.1
      let suffixG := m.2.2.getD ""
      some ⟨raw, prefixG ++ jsInterp dateG ++ suffixG,
            strOrUndef prefixG,
            (dateG.bind strOrUndef),
            strOrUndef suffixG⟩

/-- `parseLotCode(text)` from `parsers/lot.ts`. -/
def parseLotCode (text : String) : Option ParsedLot :=
  let cleaned : String := ⟨(jsTrim text).data.map jsToUpper⟩
  tryLotPatterns cleaned (jsTrim text) LOT_PATTERNS

/-! ## Text similarity (`packages/core/src/matching/text.ts`) -/

/-- The stop-word alternation of `normalizeText`. -/
def STOP_WORDS : List String :=
  ["the", "a", "an", "and", "or", "but", "in", "on", "at", "to", "for", "of",
   "with", "by"]

/-- `.replace(/\s+/g, ' ')`: collapse every whitespace run to a single
space. -/
def collapseWsAux : Bool → List Char → List Char
  | _, [] => []
  | prevSpace, c :: cs =>
    if jsIsSpace c then
      if prevSpace then collapseWsAux true cs else ' ' :: collapseWsAux true cs
    else c :: collapseWsAux false cs

/-- Join tokens with single spaces (inverse of `splitOnChar ' '`). -/
def joinSp : List (List Char) → List Char
  | [] => []
  | [t] => t
  | t :: ts => t ++ ' ' :: joinSp ts

/-- `normalizeText(text)` from `matching/text.ts`: lowercase, trim, replace
punctuation (`[^\w\s]`) with spaces, collapse whitespace runs, remove the
stop words, trim.  After the collapse step the string consists of `\w`-runs
separated by single spaces, on which the `\b`-anchored whole-word
replacement `/\b(the|…)\b/g → ''` is exactly token-wise removal (a stop word
embedded in a longer `\w`-run has no word boundary next to it); the spaces
around a removed word are kept, as in the source, where only the final
`.trim()` cleans the ends. -/
def normalizeText (text : String) : String :=
  let step1 := text.data.map jsToLower
  let step2 := ((step1.dropWhile jsIsSpace).reverse.dropWhile jsIsSpace).reverse
  let step3 := step2.map (fun c => if !jsIsWordChar c && !jsIsSpace c then ' ' else c)
  let step4 := collapseWsAux false step3
  let toks := (splitOnChar ' ' step4).map
    (fun t => if STOP_WORDS.contains ⟨t⟩ then [] else t)
  let joined := joinSp toks
  ⟨((joined.dropWhile jsIsSpace).reverse.dropWhile jsIsSpace).reverse⟩

/-- Inner loop of the Jaro match search: first index `j` (scanning `fuel`
positions from `j₀`) that is unclaimed in `s2M` and where `s2` agrees with
`c`; the source's `continue`/`break` pair. -/
def scanMatchJ (s2 : List Char) (s2M : List Bool) (c : Char) : Nat → Nat → Option Nat
  | _, 0 => none
  | j, fuel + 1 =>
    if s2M.getD j false || !(s2.getD j ' ' == c) then scanMatchJ s2 s2M c (j + 1) fuel
    else some j

/-- Outer loop of the Jaro match search, threading the two claimed-position
arrays and the match count. -/
def jaroFindMatches (s1 s2 : List Char) (mw : Nat) :
    Nat → Nat → List Bool → List Bool → Nat → List Bool × List Bool × Nat
  | 0, _, s1M, s2M, m => (s1M, s2M, m)
  | fuel + 1, i, s1M, s2M, m =>
    let start := i - mw
    let stop := min (i + mw + 1) s2.length
    match scanMatchJ s2 s2M (s1.getD i ' ') start (stop - start) with
    | none => jaroFindMatches s1 s2 mw fuel (i + 1) s1M s2M m
    | some j =>
      jaroFindMatches s1 s2 mw fuel (i + 1) (s1M.set i true) (s2M.set j true) (m + 1)

/-- `while (!s2Matches[k]) k++`. -/
def nextTrueIdx (l : List Bool) : Nat → Nat → Nat
  | j, 0 => j
  | j, fuel + 1 => if l.getD j false then j else nextTrueIdx l (j + 1) fuel

/-- Transposition-counting loop of the Jaro similarity. -/
def jaroTrans (s1 s2 : List Char) (s1M s2M : List Bool) : Nat → Nat → Nat → Nat → Nat
  | 0, _, _, t => t
  | fuel + 1, i, k, t =>
    if !(s1M.getD i false) then jaroTrans s1 s2 s1M s2M fuel (i + 1) k t
    else
      let k' := nextTrueIdx s2M k (s2M.length + 1)
      let t' := if s1.getD i ' ' == s2.getD k' ' ' then t else t + 1
      jaroTrans s1 s2 s1M s2M fuel (i + 1) (k' + 1) t'

/-- Length of the common prefix, capped per the Winkler bonus. -/
def prefixCount (s1 s2 : List Char) (bound : Nat) : Nat → Nat → Nat
  | _, 0 => 0
  | i, fuel + 1 =>
    if i < bound && s1.getD i ' ' == s2.getD i ' ' then 1 + prefixCount s1 s2 bound (i + 1) fuel
    else 0

/-- `jaroWinklerSimilarity(s1, s2)` from `matching/text.ts`, as an exact
rational.  The loops are translated one-for-one above.  The final arithmetic
`jaro = (m/l1 + m/l2 + (m - t/2)/m) / 3` followed by
`jaro + 0.1 * prefix * (1 - jaro)` is assembled as one exact rational
(`Rat`'s field operations are opaque to kernel evaluation):
`jaro = (m·l2·2m + m·l1·2m + (2m - t)·l1·l2) / (3·l1·l2·2m)` and the result
is `((10 - prefix)·jaro + prefix) / 10`, the same values. -/
def jaroWinklerSimilarity (s1 s2 : String) : ℚ :=
  let s1N := (normalizeText s1).data
  let s2N := (normalizeText s2).data
  if s1N = s2N then 1
  else if s1N.length = 0 ∨ s2N.length = 0 then 0
  else if (max s1N.length s2N.length) / 2 = 0 then 0  -- matchWindow < 0
  else
    let mw := (max s1N.length s2N.length) / 2 - 1
    let l1 := s1N.length
    let l2 := s2N.length
    let (s1M, s2M, m) := jaroFindMatches s1N s2N mw l1 0
      (List.replicate l1 false) (List.replicate l2 false) 0
    if m == 0 then 0
    else
      let t := jaroTrans s1N s2N s1M s2M l1 0 0 0
      let jaro : ℚ := mkRat (m * l2 * (2 * m) + m * l1 * (2 * m) + (2 * m - t) * l1 * l2)
        (3 * l1 * l2 * (2 * m))
      let p := prefixCount s1N s2N (min (min l1 l2) 4) 0 (min (min l1 l2) 4 + 1)
      mkRat ((10 - (p : Int)) * jaro.num + (p : Int) * (jaro.den : Int)) (10 * jaro.den)

/-- Character `n`-grams of a normalized string, with multiplicity. -/
def ngramsOf (cs : List Char) (n : Nat) : List (List Char) :=
  if cs.length < n then []
  else (List.range (cs.length - n + 1)).map (fun i => (cs.drop i).take n)

/-- `cosineSimilarity(s1, s2, n) >= t`, embedded at the comparison level: the
source value is `dotProduct / (sqrt norm1 * sqrt norm2)`, which is irrational
in general, so the embedding decides the threshold comparison instead; for
`t > 0` (the only calls are with `t = 0.7`) it is equivalent to
`t²·norm1·norm2 ≤ dotProduct²` because every quantity is nonnegative.  The
short-circuit branches (`1.0` on equal normalizations, `0.0` on an empty
normalization or an empty n-gram vector) mirror the source. -/
def cosineSimilarityGE (s1 s2 : String) (n : Nat) (t : ℚ) : Bool :=
  let s1N := (normalizeText s1).data
  let s2N := (normalizeText s2).data
  if s1N == s2N then t ≤ 1
  else if s1N.length == 0 || s2N.length == 0 then t ≤ 0
  else
    let ng1 := ngramsOf s1N n
    let ng2 := ngramsOf s2N n
    let keys := (ng1 ++ ng2).dedup
    let dp := (keys.map (fun g => ng1.count g * ng2.count g)).sum
    let n1 := (keys.map (fun g => ng1.count g * ng1.count g)).sum
    let n2 := (keys.map (fun g => ng2.count g * ng2.count g)).sum
    if n1 == 0 || n2 == 0 then t ≤ 0
    else if t ≤ 0 then true
    else t.num * t.num * (n1 : Int) * (n2 : Int) ≤
      (dp : Int) * (dp : Int) * (t.den : Int) * (t.den : Int)

/-- `isBrandSimilar(brand1, brand2, threshold = 0.8)` from
`matching/text.ts`. -/
def isBrandSimilar (brand1 brand2 : String) (threshold : ℚ := mkRat 8 10) : Bool :=
  threshold ≤ jaroWinklerSimilarity brand1 brand2

/-- `isProductSimilar(product1, product2, threshold = 0.7)` from
`matching/text.ts`: `max(jaroSim, cosineSim) >= threshold`, decided
disjunctively. -/
def isProductSimilar (product1 product2 : String) (threshold : ℚ := mkRat 7 10) : Bool :=
  (threshold ≤ jaroWinklerSimilarity product1 product2) ||
    cosineSimilarityGE product1 product2 2 threshold

/-! ## Schemas and the decision engine
(`packages/core/src/schemas/recall.ts`, `packages/core/src/matching/decision.ts`) -/

/-- `RecallSource` from `schemas/recall.ts`. -/
inductive RecallSource where
  | fda | fsis | cpsc
deriving Repr, DecidableEq

/-- `status` enumeration of `RecallRecordSchema`. -/
inductive RecallStatus where
  | ongoing | terminated | unknown
deriving Repr, DecidableEq

/-- The `links` object of `RecallRecordSchema`. -/
structure RecallLinks where
  official : String
  manufacturer : Option String
deriving Repr, DecidableEq

/-- The `expiration` object of `RecallRecordSchema`; the source's `end` field
is named `stop` (`end` is reserved in Lean). -/
structure Expiration where
  start : Option String
  stop : Option String
deriving Repr, DecidableEq

/-- `RecallRecord` from `schemas/recall.ts`. -/
structure RecallRecord where
  id : String
  source : RecallSource
  brand : List String
  product : String
  upcs : List String
  lotRegex : Option (List String)
  expiration : Option Expiration
  hazard : String
  actions : List String
  jurisdictions : Option (List String)
  links : RecallLinks
  published : String
  updated : Option String
  status : Option RecallStatus
deriving Repr, DecidableEq

/-- `Decision` from `schemas/recall.ts`. -/
inductive Decision where
  | GREEN | YELLOW | RED
deriving Repr, DecidableEq

/-- `MatchResult` from `schemas/recall.ts` (`confidence` is an optional
number in `[0,1]`). -/
structure MatchResult where
  decision : Decision
  reasons : List String
  «matches» : List RecallRecord
  confidence : Option ℚ
deriving Repr, DecidableEq

/-- `DecisionInput` from `matching/decision.ts`. -/
structure DecisionInput where
  upc : Option String
  brand : Option String
  product : Option String
  lot : Option String
  expiry : Option String
  sourceHits : List RecallRecord
deriving Repr, DecidableEq

/-- `findUPCMatches(upc, records)` from `matching/decision.ts`.  `if (!upc)`
is string truthiness. -/
def findUPCMatches (upc : Option String) (records : List RecallRecord) :
    List RecallRecord :=
  if !strTruthy upc then []
  else
    let normalizedUPC := normalizeUPC (upc.getD "")
    if !normalizedUPC.isValid then []
    else
      records.filter (fun record =>
        record.upcs.any (fun recordUPC =>
          let normalizedRecordUPC := normalizeUPC recordUPC
          normalizedRecordUPC.isValid &&
            (normalizedUPC.normalized == normalizedRecordUPC.normalized ||
             areUPCEquivalent normalizedUPC.normalized normalizedRecordUPC.normalized)))

/-- `findBrandProductMatches(brand, product, records)` from
`matching/decision.ts`: a record matches when the scan's brand (if truthy)
is similar to one of the record's brand variants and the scan's product (if
truthy) is similar to the record's product. -/
def findBrandProductMatches (brand product : Option String)
    (records : List RecallRecord) : List RecallRecord :=
  if !strTruthy brand && !strTruthy product then []
  else
    records.filter (fun record =>
      (if strTruthy brand then
        record.brand.any (fun recordBrand =>
          isBrandSimilar (brand.getD "") recordBrand (mkRat 8 10))
       else true) &&
      (if strTruthy product then
        isProductSimilar (product.getD "") record.product (mkRat 7 10)
       else true))

/-- The tier-1 filter of `decide`:
`!record.lotRegex || !lot || record.lotRegex.some(p => matchesLotPattern(lot, p))`.
A present `lotRegex` array is truthy even when empty; `!lot` is string
truthiness. -/
def upcRedPred (lot : Option String) (record : RecallRecord) : Bool :=
  !record.lotRegex.isSome || !strTruthy lot ||
    (record.lotRegex.getD []).any (fun pattern => matchesLotPattern (lot.getD "") pattern)

/-- The tier-2 constraint filter of `decide`:
`record.lotRegex || record.expiration`. -/
def constrainedPred (record : RecallRecord) : Bool :=
  record.lotRegex.isSome || record.expiration.isSome

/-- The tier-2 satisfaction filter of `decide`: when the record has lot
patterns and the scan a (truthy) lot code, the lot-pattern test alone
decides; otherwise, when the record has an expiration window and the scan a
(truthy) expiry, the window test decides; otherwise the record is
unsatisfied. -/
def tier2SatPred (lot expiry : Option String) (record : RecallRecord) : Bool :=
  if record.lotRegex.isSome && strTruthy lot then
    (record.lotRegex.getD []).any (fun pattern => matchesLotPattern (lot.getD "") pattern)
  else if record.expiration.isSome && strTruthy expiry then
    let e := record.expiration.getD ⟨none, none⟩
    isDateInRange (expiry.getD "") e.start e.stop
  else false

/-- `decide(input)` from `matching/decision.ts`, translated branch for
branch. -/
def decide (input : DecisionInput) : MatchResult :=
  let upc := input.upc
  let brand := input.brand
  let product := input.product
  let lot := input.lot
  let expiry := input.expiry
  let sourceHits := input.sourceHits
  if sourceHits.length = 0 then
    ⟨Decision.GREEN, ["No recalls found for this product"], [], none⟩
  else
    -- Tier 1: Exact UPC match with lot/date validation
    let upcMatches := findUPCMatches upc sourceHits
    if upcMatches.length > 0 then
      let redMatches := upcMatches.filter (upcRedPred lot)
      if redMatches.length > 0 then
        ⟨Decision.RED,
         ["Exact UPC match found",
          if strTruthy lot then "Lot code matches recall criteria"
          else "No lot code restrictions in recall"],
         redMatches, some (mkRat 95 100)⟩
      else
        ⟨Decision.YELLOW,
         ["Exact UPC match found",
          "Your lot code does not match the recalled lots",
          "Please verify your lot code matches the recall notice"],
         upcMatches, some (mkRat 8 10)⟩
    else
      -- Tier 2: Brand + Product fuzzy match
      let brandProductMatches := findBrandProductMatches brand product sourceHits
      if brandProductMatches.length > 0 then
        let constrainedMatches := brandProductMatches.filter constrainedPred
        if constrainedMatches.length > 0 then
          let lotMatches := constrainedMatches.filter (tier2SatPred lot expiry)
          if lotMatches.length > 0 then
            ⟨Decision.RED,
             ["Brand and product match found",
              "Lot/expiry date matches recall criteria"],
             lotMatches, some (mkRat 85 100)⟩
          else
            ⟨Decision.YELLOW,
             ["Brand and product match found",
              "Your lot/expiry date does not match the recalled range",
              "Please verify your lot/expiry date matches the recall notice"],
             constrainedMatches, some (mkRat 7 10)⟩
        else
          ⟨Decision.YELLOW,
           ["Brand and product match found",
            "No specific lot/date restrictions in recall",
            "Please verify this matches your product"],
           brandProductMatches, some (mkRat 6 10)⟩
      else
        ⟨Decision.GREEN, ["No recalls found for this product"], [], none⟩

/-! ## Helper lemmas -/

theorem isEmpty_false_of_ne {l : String} (h : l ≠ "") : l.isEmpty = false := by
  cases hb : l.isEmpty
  · rfl
  · exact absurd ((String.isEmpty_iff l).mp hb) h

theorem strTruthy_some_of_ne {l : String} (h : l ≠ "") : strTruthy (some l) = true := by
  simp [strTruthy, isEmpty_false_of_ne h]

theorem findUPCMatches_nil (u : Option String) : findUPCMatches u [] = [] := by
  simp [findUPCMatches]

theorem findBrandProductMatches_nil (b p : Option String) :
    findBrandProductMatches b p [] = [] := by
  simp [findBrandProductMatches]

theorem expiryFromMatch_confidence {raw : String} {g : String × String × String}
    {r : ParsedExpiry} (h : expiryFromMatch raw g = some r) :
    r.confidence = mkRat 9 10 := by
  simp only [expiryFromMatch] at h
  split at h
  · exact absurd h (by simp)
  · split at h
    · exact absurd h (by simp)
    · cases h
      rfl

theorem tryExpiryPatterns_confidence {cleaned : String}
    {ps : List (String → Option (String × String × String))} {r : ParsedExpiry}
    (h : tryExpiryPatterns cleaned ps = some r) : r.confidence = mkRat 9 10 := by
  induction ps with
  | nil => exact absurd h (by simp [tryExpiryPatterns])
  | cons p ps ih =>
    cases hp : p cleaned with
    | none =>
      have hstep : tryExpiryPatterns cleaned (p :: ps) = tryExpiryPatterns cleaned ps := by
        simp only [tryExpiryPatterns, hp]
      rw [hstep] at h
      exact ih h
    | some g =>
      cases hm : expiryFromMatch cleaned g with
      | none =>
        have hstep : tryExpiryPatterns cleaned (p :: ps) = tryExpiryPatterns cleaned ps := by
          simp only [tryExpiryPatterns, hp, hm]
        rw [hstep] at h
        exact ih h
      | some r' =>
        have hstep : tryExpiryPatterns cleaned (p :: ps) = some r' := by
          simp only [tryExpiryPatterns, hp, hm]
        rw [hstep] at h
        cases h
        exact expiryFromMatch_confidence hm

/-! ## Claims -/

/-- Claim C2 (status: code_bug).  The claim says `normalizeUPC(...).isValid`
agrees with the standard UPC-A/EAN-13/EAN-8 modulo-10 checksum.  It does
not: the source's weight expression collapses to weight 3 at every index for
length 8 and to the 1,3,1,3,… (EAN-13) weighting for length 12, so the
standard-valid UPC-A `036000291452` and the standard-valid EAN-8 `73513537`
are rejected, while `01000007` (standard-invalid) is accepted. -/
theorem validateChecksum_deviates_from_standard :
    standardChecksumOk "036000291452" = true ∧
    (normalizeUPC "036000291452").isValid = false ∧
    standardChecksumOk "73513537" = true ∧
    (normalizeUPC "73513537").isValid = false ∧
    standardChecksumOk "01000007" = false ∧
    (normalizeUPC "01000007").isValid = true := by
  decide

/-- Claim C4 (status: code_bug).  The claim says `parseExpiryDate` succeeds
on every real ISO `YYYY-MM-DD` date.  It fails on all of them: the ISO
pattern's capture groups are destructured positionally as
`[, month, day, year]`, so the four-digit year is range-checked as a month
(`2024 > 12`) and the candidate is discarded; no other pattern matches an
ISO string. -/
theorem parseExpiryDate_rejects_iso :
    parseExpiryDate "2024-03-15" = none := by
  decide

/-- Claim C5, counterexample.  `00000000` is a valid EAN-8 per the source's
own checksum, yet `areUPCEquivalent` on the bit-identical pair returns
`false` (the function only handles UPC-A/UPC-A and EAN-13/EAN-13 pairs and
falls through to `false` for EAN-8). -/
theorem areUPCEquivalent_ean8_self_false :
    (normalizeUPC "00000000").isValid = true ∧
    (normalizeUPC "00000000").type = UPCType.ean8 ∧
    areUPCEquivalent "00000000" "00000000" = false := by
  decide

/-- Claim C5 (status: corrected).  For a pair of bit-identical valid
identifiers, `areUPCEquivalent` returns `true` when their type is UPC-A or
EAN-13 — but `false` when it is EAN-8. -/
theorem areUPCEquivalent_self (s : String) (h : (normalizeUPC s).isValid = true) :
    (((normalizeUPC s).type = UPCType.upcA ∨ (normalizeUPC s).type = UPCType.ean13) →
      areUPCEquivalent s s = true) ∧
    ((normalizeUPC s).type = UPCType.ean8 → areUPCEquivalent s s = false) := by
  constructor
  · intro ht
    unfold areUPCEquivalent
    rcases ht with ht | ht <;> simp [h, ht]
  · intro ht
    unfold areUPCEquivalent
    simp [h, ht]

/-- Claim C5, witness: the amended theorem applied to the all-zero UPC-A. -/
theorem areUPCEquivalent_self_witness :
    areUPCEquivalent "000000000000" "000000000000" = true :=
  (areUPCEquivalent_self "000000000000" (by decide)).1 (Or.inl (by decide))

/-- Claim C6, counterexample.  Both `"the"` and `"a"` normalize to the empty
string, so the equality short-circuit fires first and the similarity is
`1.0`, not the `0.0` the claim requires when "at least one" side normalizes
to empty. -/
theorem jaroWinkler_both_empty_one :
    normalizeText "the" = "" ∧ normalizeText "a" = "" ∧
    jaroWinklerSimilarity "the" "a" = 1 := by
  decide

/-- Claim C6 (status: corrected).  When at least one side normalizes to
empty and the two normalizations differ (equivalently, exactly one side is
empty), `jaroWinklerSimilarity` returns `0.0`; when both are empty the
equality short-circuit returns `1.0` instead. -/
theorem jaroWinkler_empty_zero (s1 s2 : String)
    (h : normalizeText s1 = "" ∨ normalizeText s2 = "")
    (hne : normalizeText s1 ≠ normalizeText s2) :
    jaroWinklerSimilarity s1 s2 = 0 := by
  unfold jaroWinklerSimilarity
  have hdata : (normalizeText s1).data ≠ (normalizeText s2).data :=
    fun hd => hne (String.ext hd)
  have hlen : (normalizeText s1).data.length = 0 ∨ (normalizeText s2).data.length = 0 := by
    rcases h with h | h
    · exact Or.inl (by simp [h])
    · exact Or.inr (by simp [h])
  simp only [if_neg hdata, if_pos hlen]

/-- Claim C6, witness: `"the"` normalizes empty, `"soup"` does not. -/
theorem jaroWinkler_empty_zero_witness :
    jaroWinklerSimilarity "the" "soup" = 0 :=
  jaroWinkler_empty_zero "the" "soup" (Or.inl (by decide)) (by decide)

/-- Claim C9, counterexample.  `parseExpiryDate` succeeds on `12/25/2024`
with confidence `0.9`, not the `1.0` the claim requires. -/
theorem parseExpiryDate_confidence_not_one :
    parseExpiryDate "12/25/2024" =
      some ⟨"12/25/2024", "2024-12-25", mkRat 9 10⟩ ∧
    (mkRat 9 10 : ℚ) ≠ 1 := by
  decide

/-- Claim C9 (status: corrected).  Every successful `parseExpiryDate` result
carries confidence exactly `0.9` (the source comment's "high confidence for
matched patterns"), not `1.0`. -/
theorem parseExpiryDate_confidence (t : String) (r : ParsedExpiry)
    (h : parseExpiryDate t = some r) : r.confidence = mkRat 9 10 :=
  tryExpiryPatterns_confidence h

/-- Claim C9, witness: the amended theorem applied to `12/25/2024`. -/
theorem parseExpiryDate_confidence_witness :
    (⟨"12/25/2024", "2024-12-25", mkRat 9 10⟩ : ParsedExpiry).confidence = mkRat 9 10 :=
  parseExpiryDate_confidence "12/25/2024" _ (by decide)

/-- As soon as the UPC tier matches, `decide` returns the tier-1 outcome
(shared helper for the tier-priority and UPC-tier claims). -/
theorem decide_upcTier (input : DecisionInput)
    (hne : findUPCMatches input.upc input.sourceHits ≠ []) :
    decide input =
      (if ((findUPCMatches input.upc input.sourceHits).filter (upcRedPred input.lot)).length > 0 then
        ⟨Decision.RED,
         ["Exact UPC match found",
          if strTruthy input.lot then "Lot code matches recall criteria"
          else "No lot code restrictions in recall"],
         (findUPCMatches input.upc input.sourceHits).filter (upcRedPred input.lot),
         some (mkRat 95 100)⟩
      else
        ⟨Decision.YELLOW,
         ["Exact UPC match found",
          "Your lot code does not match the recalled lots",
          "Please verify your lot code matches the recall notice"],
         findUPCMatches input.upc input.sourceHits, some (mkRat 8 10)⟩) := by
  have hsrc : ¬ input.sourceHits.length = 0 := by
    intro h0
    rw [List.length_eq_zero.mp h0, findUPCMatches_nil] at hne
    exact hne rfl
  have hlen : (findUPCMatches input.upc input.sourceHits).length > 0 :=
    List.length_pos.mpr hne
  simp only [decide]
  rw [if_neg hsrc, if_pos hlen]

theorem findUPCMatches_subset (u : Option String) (records : List RecallRecord) :
    ∀ r ∈ findUPCMatches u records, r ∈ records := by
  intro r hr
  simp only [findUPCMatches] at hr
  split at hr
  · exact absurd hr (by simp)
  · split at hr
    · exact absurd hr (by simp)
    · exact (List.mem_filter.mp hr).1

theorem findBrandProductMatches_subset (b p : Option String)
    (records : List RecallRecord) :
    ∀ r ∈ findBrandProductMatches b p records, r ∈ records := by
  intro r hr
  simp only [findBrandProductMatches] at hr
  split at hr
  · exact absurd hr (by simp)
  · exact (List.mem_filter.mp hr).1

/-- Claim C1 (status: confirmed).  With a UPC that produced tier-1 matches
and a (non-empty) scan lot code: if some UPC-matched record has no lot
restriction or one the lot code satisfies, the decision is RED with
confidence 0.95; if every UPC-matched record has a lot restriction the lot
code does not satisfy, the decision is YELLOW with confidence 0.8. -/
theorem decide_upc_lot_split (input : DecisionInput) (l : String)
    (hlot : input.lot = some l) (hl : l ≠ "")
    (hne : findUPCMatches input.upc input.sourceHits ≠ []) :
    ((∃ r ∈ findUPCMatches input.upc input.sourceHits,
        r.lotRegex = none ∨ ∃ p ∈ r.lotRegex.getD [], matchesLotPattern l p = true) →
      (decide input).decision = Decision.RED ∧
        (decide input).confidence = some (mkRat 95 100)) ∧
    ((∀ r ∈ findUPCMatches input.upc input.sourceHits,
        r.lotRegex ≠ none ∧ ∀ p ∈ r.lotRegex.getD [], matchesLotPattern l p = false) →
      (decide input).decision = Decision.YELLOW ∧
        (decide input).confidence = some (mkRat 8 10)) := by
  have hpred : ∀ rec : RecallRecord, upcRedPred input.lot rec = true ↔
      (rec.lotRegex = none ∨ ∃ p ∈ rec.lotRegex.getD [], matchesLotPattern l p = true) := by
    intro rec
    simp [upcRedPred, hlot, strTruthy_some_of_ne hl, Option.not_isSome_iff_eq_none, List.any_eq_true]
  have heq := decide_upcTier input hne
  constructor
  · rintro ⟨r, hrmem, hrcond⟩
    have hmem : r ∈ (findUPCMatches input.upc input.sourceHits).filter (upcRedPred input.lot) :=
      List.mem_filter.mpr ⟨hrmem, (hpred r).mpr hrcond⟩
    have hpos : ((findUPCMatches input.upc input.sourceHits).filter (upcRedPred input.lot)).length > 0 :=
      List.length_pos.mpr (List.ne_nil_of_mem hmem)
    rw [heq, if_pos hpos]
    exact ⟨rfl, rfl⟩
  · intro hall
    have hnil : (findUPCMatches input.upc input.sourceHits).filter (upcRedPred input.lot) = [] := by
      rw [List.filter_eq_nil_iff]
      intro r hr
      rcases hall r hr with ⟨hn, hfail⟩
      intro hpt
      rcases (hpred r).mp hpt with h | ⟨p, hp, hmt⟩
      · exact hn h
      · rw [hfail p hp] at hmt
        exact Bool.false_ne_true hmt
    rw [heq, if_neg (by simp [hnil])]
    exact ⟨rfl, rfl⟩

/-- Claim C1, witness: the spec's second example scenario — record with lot
pattern `^L2201$`, scan lot `L2205` — lands in the YELLOW/0.8 branch. -/
theorem decide_upc_lot_split_witness :
    (decide ⟨some "012345678905", none, none, some "L2205", none,
      [⟨"c1", RecallSource.fda, [], "product", ["012345678905"], some ["^L2201$"], none,
        "hazard", [], none, ⟨"https://recalls.gov/1", none⟩, "2024-01-01", none, none⟩]⟩).decision =
      Decision.YELLOW ∧
    (decide ⟨some "012345678905", none, none, some "L2205", none,
      [⟨"c1", RecallSource.fda, [], "product", ["012345678905"], some ["^L2201$"], none,
        "hazard", [], none, ⟨"https://recalls.gov/1", none⟩, "2024-01-01", none, none⟩]⟩).confidence =
      some (mkRat 8 10) :=
  (decide_upc_lot_split _ "L2205" rfl (by decide) (by decide)).2 (by decide)

/-- Claim C3 (status: confirmed).  A record matching both by UPC and by
brand/product makes `decide` return the UPC tier's outcome — its reasons,
its matches, and a confidence of 0.95 or 0.8 — never the brand/product
tier's. -/
theorem decide_tier_priority (input : DecisionInput) (r : RecallRecord)
    (h1 : r ∈ findUPCMatches input.upc input.sourceHits)
    (_h2 : r ∈ findBrandProductMatches input.brand input.product input.sourceHits) :
    (decide input =
      (if ((findUPCMatches input.upc input.sourceHits).filter (upcRedPred input.lot)).length > 0 then
        ⟨Decision.RED,
         ["Exact UPC match found",
          if strTruthy input.lot then "Lot code matches recall criteria"
          else "No lot code restrictions in recall"],
         (findUPCMatches input.upc input.sourceHits).filter (upcRedPred input.lot),
         some (mkRat 95 100)⟩
      else
        ⟨Decision.YELLOW,
         ["Exact UPC match found",
          "Your lot code does not match the recalled lots",
          "Please verify your lot code matches the recall notice"],
         findUPCMatches input.upc input.sourceHits, some (mkRat 8 10)⟩)) ∧
    ((decide input).confidence = some (mkRat 95 100) ∨
      (decide input).confidence = some (mkRat 8 10)) := by
  have hne : findUPCMatches input.upc input.sourceHits ≠ [] :=
    List.ne_nil_of_mem h1
  have heq := decide_upcTier input hne
  refine ⟨heq, ?_⟩
  rw [heq]
  by_cases hred :
    ((findUPCMatches input.upc input.sourceHits).filter (upcRedPred input.lot)).length > 0
  · rw [if_pos hred]
    exact Or.inl rfl
  · rw [if_neg hred]
    exact Or.inr rfl

/-- Claim C3, witness: a record carrying both the scanned UPC and the
scanned brand/product; the engine reports the UPC tier's confidence. -/
theorem decide_tier_priority_witness :
    (decide ⟨some "012345678905", some "acme", some "widget", none, none,
      [⟨"c3", RecallSource.fda, ["acme"], "widget", ["012345678905"], none, none,
        "hazard", [], none, ⟨"https://recalls.gov/3", none⟩, "2024-01-01", none, none⟩]⟩).confidence =
        some (mkRat 95 100) ∨
    (decide ⟨some "012345678905", some "acme", some "widget", none, none,
      [⟨"c3", RecallSource.fda, ["acme"], "widget", ["012345678905"], none, none,
        "hazard", [], none, ⟨"https://recalls.gov/3", none⟩, "2024-01-01", none, none⟩]⟩).confidence =
        some (mkRat 8 10) :=
  (decide_tier_priority _
    ⟨"c3", RecallSource.fda, ["acme"], "widget", ["012345678905"], none, none,
      "hazard", [], none, ⟨"https://recalls.gov/3", none⟩, "2024-01-01", none, none⟩
    (by decide) (by decide)).2

/-- Claim C7 (status: confirmed).  A scan with all five fields absent yields
GREEN with no matches and no confidence against every candidate list, and
`decide` is total on it. -/
theorem decide_empty_scan (hits : List RecallRecord) :
    decide ⟨none, none, none, none, none, hits⟩ =
      ⟨Decision.GREEN, ["No recalls found for this product"], [], none⟩ := by
  have hU : findUPCMatches none hits = [] := by
    simp [findUPCMatches, strTruthy]
  have hBP : findBrandProductMatches none none hits = [] := by
    simp [findBrandProductMatches, strTruthy]
  simp only [decide, hU, hBP]
  split <;> simp

/-- Claim C10 (status: confirmed).  In the brand+product tier's re-check, a
record carrying both lot patterns and an expiration window, scanned with
both a lot code and an expiry date, is classified by the lot-pattern test
alone: even when the window contains the scan's expiry
(`isDateInRange … = true`), a lot code failing every pattern leaves the
record constrained-but-unsatisfied, and the decision is YELLOW with
confidence 0.7. -/
theorem decide_brand_tier_ignores_expiration (input : DecisionInput)
    (r : RecallRecord) (ps : List String) (w : Expiration) (l e : String)
    (hU : findUPCMatches input.upc input.sourceHits = [])
    (hBP : findBrandProductMatches input.brand input.product input.sourceHits = [r])
    (hlr : r.lotRegex = some ps) (_hex : r.expiration = some w)
    (hlot : input.lot = some l) (hl : l ≠ "") (_hexp : input.expiry = some e)
    (hfail : ∀ p ∈ ps, matchesLotPattern l p = false)
    (_hwin : isDateInRange e w.start w.stop = true) :
    decide input =
      ⟨Decision.YELLOW,
       ["Brand and product match found",
        "Your lot/expiry date does not match the recalled range",
        "Please verify your lot/expiry date matches the recall notice"],
       [r], some (mkRat 7 10)⟩ := by
  have hsrc : ¬ input.sourceHits.length = 0 := by
    intro h0
    rw [List.length_eq_zero.mp h0, findBrandProductMatches_nil] at hBP
    exact List.noConfusion hBP
  have hconstr : constrainedPred r = true := by
    simp [constrainedPred, hlr]
  have hsat : tier2SatPred input.lot input.expiry r = false := by
    have hcond : ((some ps).isSome && strTruthy (some l)) = true := by
      simp [strTruthy_some_of_ne hl]
    simp only [tier2SatPred, hlr, hlot, if_pos hcond, Option.getD_some,
      List.any_eq_false]
    intro p hp
    simp [hfail p hp]
  simp only [decide, hU, hBP]
  rw [if_neg hsrc]
  rw [if_neg (by simp : ¬ ([] : List RecallRecord).length > 0)]
  rw [if_pos (by simp : ([r] : List RecallRecord).length > 0)]
  rw [show ([r].filter constrainedPred) = [r] by simp [hconstr]]
  rw [if_pos (by simp : ([r] : List RecallRecord).length > 0)]
  rw [show ([r].filter (tier2SatPred input.lot input.expiry)) = [] by simp [hsat]]
  rw [if_neg (by simp : ¬ ([] : List RecallRecord).length > 0)]

/-- Claim C10, witness: lot `L2205` fails `^L2201$` while expiry
`2024-06-15` lies inside the record's 2024 window; the verdict is still
YELLOW/0.7. -/
theorem decide_brand_tier_ignores_expiration_witness :
    decide ⟨none, some "acme", some "widget", some "L2205", some "2024-06-15",
      [⟨"c10", RecallSource.fda, ["acme"], "widget", [], some ["^L2201$"],
        some ⟨some "2024-01-01", some "2024-12-31"⟩, "hazard", [], none,
        ⟨"https://recalls.gov/10", none⟩, "2024-01-01", none, none⟩]⟩ =
      ⟨Decision.YELLOW,
       ["Brand and product match found",
        "Your lot/expiry date does not match the recalled range",
        "Please verify your lot/expiry date matches the recall notice"],
       [⟨"c10", RecallSource.fda, ["acme"], "widget", [], some ["^L2201$"],
         some ⟨some "2024-01-01", some "2024-12-31"⟩, "hazard", [], none,
         ⟨"https://recalls.gov/10", none⟩, "2024-01-01", none, none⟩],
       some (mkRat 7 10)⟩ :=
  decide_brand_tier_ignores_expiration _ _ ["^L2201$"]
    ⟨some "2024-01-01", some "2024-12-31"⟩ "L2205" "2024-06-15"
    (by decide) (by decide) rfl rfl rfl (by decide) rfl (by decide) (by decide)

/-- Claim C8 (status: confirmed).  The core degrades instead of failing: a
lot pattern that does not compile tests as non-matching, an unparseable
target date makes `isDateInRange` false, and every `decide` call returns a
well-formed `MatchResult` — its matches are drawn from the supplied
candidate records and any confidence it reports lies in `[0, 1]`.
(`parseLotCode` and `parseExpiryDate` are total functions of this embedding
returning `none` on unmatched text.) -/
theorem core_never_throws :
    (∀ lot pattern, compileRegex pattern = none → matchesLotPattern lot pattern = false) ∧
    (∀ d s e, jsParseDate d = none → isDateInRange d s e = false) ∧
    (∀ input : DecisionInput,
      (∀ r ∈ (decide input).«matches», r ∈ input.sourceHits) ∧
      (∀ c, (decide input).confidence = some c → 0 ≤ c ∧ c ≤ 1)) := by
  refine ⟨?_, ?_, ?_⟩
  · intro lot pattern h
    simp [matchesLotPattern, h]
  · intro d s e h
    simp [isDateInRange, h]
  · intro input
    have hU := findUPCMatches_subset input.upc input.sourceHits
    have hBP := findBrandProductMatches_subset input.brand input.product input.sourceHits
    simp only [decide]
    split
    · exact ⟨by simp, by rintro c ⟨⟩⟩
    · split
      · split
        · refine ⟨fun r hr => hU r (List.mem_filter.mp hr).1, ?_⟩
          rintro c ⟨⟩
          exact ⟨by decide, by decide⟩
        · refine ⟨fun r hr => hU r hr, ?_⟩
          rintro c ⟨⟩
          exact ⟨by decide, by decide⟩
      · split
        · split
          · split
            · refine ⟨fun r hr => hBP r (List.mem_filter.mp (List.mem_filter.mp hr).1).1, ?_⟩
              rintro c ⟨⟩
              exact ⟨by decide, by decide⟩
            · refine ⟨fun r hr => hBP r (List.mem_filter.mp hr).1, ?_⟩
              rintro c ⟨⟩
              exact ⟨by decide, by decide⟩
          · refine ⟨fun r hr => hBP r hr, ?_⟩
            rintro c ⟨⟩
            exact ⟨by decide, by decide⟩
        · exact ⟨by simp, by rintro c ⟨⟩⟩

/-- Claim C8, witness: the unterminated-group pattern `(` (which
`new RegExp` rejects) tests as non-matching; an unparseable date fails the
range check; and a concrete RED verdict's matches and confidence are
well-formed. -/
theorem core_never_throws_witness :
    matchesLotPattern "L2205" "(" = false ∧
    isDateInRange "not-a-date" (some "2024-01-01") (some "2024-12-31") = false ∧
    (0 ≤ mkRat 95 100 ∧ (mkRat 95 100 : ℚ) ≤ 1) :=
  ⟨core_never_throws.1 "L2205" "(" (by decide),
   core_never_throws.2.1 "not-a-date" (some "2024-01-01") (some "2024-12-31") (by decide),
   (core_never_throws.2.2
      ⟨some "012345678905", none, none, none, none,
        [⟨"c8", RecallSource.fda, [], "product", ["012345678905"], none, none,
          "hazard", [], none, ⟨"https://recalls.gov/8", none⟩, "2024-01-01", none, none⟩]⟩).2
     (mkRat 95 100) (by decide)⟩

end RecallLens
